import Mathlib

/-!
# Verification of the tool-calling orchestration loop (`backend/ai_generator.py`)

A shallow embedding of `AIGenerator.generate_response`,
`_execute_tool_calling_loop`, `_execute_tools` and
`_extract_text_from_response` from `backend/ai_generator.py`.

Modelling decisions:

* The remote client `self.client.messages.create` is an oracle
  `client : Nat → Response` giving the response to the n-th create call of a
  run (call 0 is the initial call in `generate_response`); the parameters of
  every call issued are recorded in a trace (`CallParams`), with `messages`
  snapshotted at call time.
* The tool manager's `execute_tool(name, **input)` is a function
  `String → ToolInput → Except String String`; `Except.error` models a raised
  exception, which the orchestrator propagates (`Except` threads through the
  loop).  The invocations made are recorded in a trace.
* Python's mutable message lists are modelled by an explicit store
  `MsgStore : List (List Message)`; a list value held in a dict is a `Nat`
  reference into the store.  `list.copy()` allocates a fresh cell,
  `list.append` writes in place.  This makes the frame property of
  `_execute_tool_calling_loop` (it copies `base_params["messages"]` and never
  writes the caller's cell) a real statement.
* A dict key that may be absent is an outer `Option`; `dict.get(k)` is
  `Option.join` (absent key ↦ `None`).  Python truthiness of an optional
  list argument (`if tools:`) is `none ↦ false, some ts ↦ ts ≠ []`.
* `response.content[0].text` (the direct return path) is fallible:
  indexing an empty list raises `IndexError`, accessing `.text` on a
  non-text block raises `AttributeError`.
-/

namespace RagChatbot

/-- Keyword arguments passed to a tool (`**content_block.input`), as an
association list of opaque values. -/
abbrev ToolInput := List (String × String)

/-- A content block of a model response: `TextBlock`, `ToolUseBlock`, or any
other block type (tagged by its `type` string). -/
inductive ContentBlock where
  | text (text : String)
  | toolUse (id : String) (name : String) (input : ToolInput)
  | other (ty : String)
deriving Repr, DecidableEq

/-- A `{"type": "tool_result", "tool_use_id": ..., "content": ...}` dict as
built by `_execute_tools`. -/
structure ToolResultBlock where
  tool_use_id : String
  content : String
deriving Repr, DecidableEq

/-- The `content` field of a message dict: the initial query string, a model
response's block list, or a list of tool-result dicts. -/
inductive MsgContent where
  | ofString (s : String)
  | ofBlocks (blocks : List ContentBlock)
  | ofResults (results : List ToolResultBlock)
deriving Repr, DecidableEq

/-- A `{"role": ..., "content": ...}` message dict. -/
structure Message where
  role : String
  content : MsgContent
deriving Repr, DecidableEq

/-- An API response: `stop_reason` and ordered content blocks. -/
structure Response where
  stop_reason : String
  content : List ContentBlock
deriving Repr, DecidableEq

/-- A tool schema dict, opaque to the orchestrator (it is only forwarded). -/
abbrev ToolSchema := String

/-- The store of mutable Python lists of messages; a list object is a `Nat`
index (reference) into the store. -/
abbrev MsgStore := List (List Message)

/-- Dereference a list object. -/
def storeRead (store : MsgStore) (r : Nat) : List Message :=
  (store.get? r).getD []

/-- Allocate a fresh list object holding `v`; returns its reference. -/
def storeAlloc (store : MsgStore) (v : List Message) : Nat × MsgStore :=
  (store.length, store ++ [v])

/-- In-place `append` of one message to the list object `r`. -/
def storeAppend (store : MsgStore) (r : Nat) (m : Message) : MsgStore :=
  store.set r (storeRead store r ++ [m])

/-- Model of `tool_manager.execute_tool(name, **input)`: returns the result string or
raises (`Except.error`). -/
abbrev ToolManager := String → ToolInput → Except String String

/-- The response oracle: the response returned by the n-th
`client.messages.create` call of a run. -/
abbrev Client := Nat → Response

/-- Observable parameters of one `client.messages.create(**api_params)` call.
`tools`: `none` = key absent, `some none` = key present with value `None`,
`some (some ts)` = key present with a schema list.  `tool_choice`:
`some c` = key present with `{"type": c}`. -/
structure CallParams where
  model : String
  temperature : Int
  max_tokens : Nat
  messages : List Message
  system : String
  tools : Option (Option (List ToolSchema))
  tool_choice : Option String
deriving Repr, DecidableEq

/-- The `api_params` dict handed to `_execute_tool_calling_loop` as
`base_params`: same keys, but `messages` holds a reference to a list object
in the store. -/
structure BaseParams where
  model : String
  temperature : Int
  max_tokens : Nat
  messagesRef : Nat
  system : String
  tools : Option (Option (List ToolSchema))
  tool_choice : Option String
deriving Repr, DecidableEq

/-- The `AIGenerator` instance state used by the orchestration (the client
object itself is passed separately as the oracle). -/
structure AIGenerator where
  model : String
deriving Repr, DecidableEq

/-- Maximum number of sequential tool calling rounds per query:
`MAX_TOOL_ROUNDS = 2`. -/
def AIGenerator.MAX_TOOL_ROUNDS : Nat := 2

/-- Pre-built `self.base_params = {"model": self.model, "temperature": 0,
"max_tokens": 800}`. -/
structure FixedParams where
  model : String
  temperature : Int
  max_tokens : Nat
deriving Repr, DecidableEq

def AIGenerator.base_params (g : AIGenerator) : FixedParams :=
  { model := g.model, temperature := 0, max_tokens := 800 }

/-- Loop of `_extract_text_from_response` over the content blocks: the first
block with `type == "text"` yields its `text`; otherwise `""`. -/
def extractTextBlocks : List ContentBlock → String
  | [] => ""
  | ContentBlock.text t :: _ => t
  | _ :: rest => extractTextBlocks rest

/-- Embedding of `_extract_text_from_response(response)`. -/
def _extract_text_from_response (response : Response) : String :=
  extractTextBlocks response.content

/-- Attribute access `block.text`: `TextBlock` has it; any other block type
raises `AttributeError`. -/
def ContentBlock.textAttr : ContentBlock → Except String String
  | ContentBlock.text t => Except.ok t
  | _ => Except.error "AttributeError"

/-- Indexing `response.content[0].text`: `IndexError` on empty content, else the first
block's `text` attribute. -/
def contentIndexZeroText : List ContentBlock → Except String String
  | [] => Except.error "IndexError"
  | b :: _ => b.textAttr

/-- Embedding of `_execute_tools(response, tool_manager)` over `response.content`: executes
each `tool_use` block in order, collecting `(name, input)` invocations made
and either the tool-result list or the first raised exception (execution
stops at a raise; invocations after it never happen). -/
def _execute_tools (tool_manager : ToolManager) :
    List ContentBlock → List (String × ToolInput) × Except String (List ToolResultBlock)
  | [] => ([], Except.ok [])
  | ContentBlock.toolUse id name input :: rest =>
    match tool_manager name input with
    | Except.error e => ([(name, input)], Except.error e)
    | Except.ok result =>
      let tailRes := _execute_tools tool_manager rest
      ((name, input) :: tailRes.1,
        match tailRes.2 with
        | Except.error e => Except.error e
        | Except.ok rs => Except.ok ({ tool_use_id := id, content := result } :: rs))
  | _ :: rest => _execute_tools tool_manager rest

deriving instance DecidableEq for Except

/-- Result of the tool-calling loop: the returned text or the propagated
exception, the trace of create calls made by the loop, the trace of tool
invocations, the reference to the loop's (copied) message list, and the final
store. -/
structure LoopResult where
  outcome : Except String String
  genCalls : List CallParams
  toolInvocations : List (String × ToolInput)
  messagesRef : Nat
  store : MsgStore
deriving Repr, DecidableEq

/-- One `while current_round < self.MAX_TOOL_ROUNDS` loop of
`_execute_tool_calling_loop`, with structural fuel maintaining
`fuel = MAX_TOOL_ROUNDS - current_round` (so the fuel-0 exit coincides with
the failing loop guard). -/
def loopIter (g : AIGenerator) (client : Client) (tool_manager : ToolManager)
    (base : BaseParams) :
    Nat → Nat → Response → MsgStore → Nat → Nat →
    List CallParams → List (String × ToolInput) → LoopResult
  | 0, _, response, store, mref, _, genCalls, invs =>
    { outcome := Except.ok (_extract_text_from_response response),
      genCalls := genCalls, toolInvocations := invs, messagesRef := mref, store := store }
  | fuel + 1, current_round, response, store, mref, callIdx, genCalls, invs =>
    if current_round < AIGenerator.MAX_TOOL_ROUNDS then
      if response.stop_reason ≠ "tool_use" then
        { outcome := Except.ok (_extract_text_from_response response),
          genCalls := genCalls, toolInvocations := invs, messagesRef := mref, store := store }
      else
        -- messages.append({"role": "assistant", "content": response.content})
        let store := storeAppend store mref
          { role := "assistant", content := MsgContent.ofBlocks response.content }
        let toolTrace := _execute_tools tool_manager response.content
        match toolTrace.2 with
        | Except.error e =>
          -- the exception propagates: no user message, no further create calls
          { outcome := Except.error e, genCalls := genCalls,
            toolInvocations := invs ++ toolTrace.1, messagesRef := mref, store := store }
        | Except.ok tool_results =>
          -- if tool_results: messages.append({"role": "user", "content": tool_results})
          let store :=
            if tool_results.isEmpty then store
            else storeAppend store mref
              { role := "user", content := MsgContent.ofResults tool_results }
          let current_round := current_round + 1
          let bp := g.base_params
          let api_params : CallParams :=
            if current_round < AIGenerator.MAX_TOOL_ROUNDS then
              { model := bp.model, temperature := bp.temperature, max_tokens := bp.max_tokens,
                messages := storeRead store mref, system := base.system,
                tools := some base.tools.join, tool_choice := some "auto" }
            else
              { model := bp.model, temperature := bp.temperature, max_tokens := bp.max_tokens,
                messages := storeRead store mref, system := base.system,
                tools := none, tool_choice := none }
          let response := client callIdx
          loopIter g client tool_manager base fuel current_round response store mref
            (callIdx + 1) (genCalls ++ [api_params]) (invs ++ toolTrace.1)
    else
      { outcome := Except.ok (_extract_text_from_response response),
        genCalls := genCalls, toolInvocations := invs, messagesRef := mref, store := store }

/-- Embedding of `_execute_tool_calling_loop(initial_response, base_params,
tool_manager)`:
copies `base_params["messages"]` into a fresh list object and runs the round
loop from `current_round = 0`.  `callIdx` is the index of the next create
call of the run. -/
def _execute_tool_calling_loop (g : AIGenerator) (client : Client)
    (initial_response : Response) (base : BaseParams) (tool_manager : ToolManager)
    (store : MsgStore) (callIdx : Nat) : LoopResult :=
  -- messages = base_params["messages"].copy()
  let alloc := storeAlloc store (storeRead store base.messagesRef)
  loopIter g client tool_manager base AIGenerator.MAX_TOOL_ROUNDS 0 initial_response
    alloc.2 alloc.1 callIdx [] []

/-- The static system prompt (content irrelevant to the verified claims, kept
as an opaque constant of the embedding). -/
def AIGenerator.SYSTEM_PROMPT : String :=
  "You are an AI assistant specialized in course materials and educational content with access to tools for course information."

/-- Python truthiness of the optional `tools` argument (`if tools:`): `None`
and the empty list are falsy. -/
def optListTruthy : Option (List ToolSchema) → Bool
  | some ts => !ts.isEmpty
  | none => false

/-- Python truthiness of the optional `conversation_history` argument: `None`
and the empty string are falsy. -/
def optStrTruthy : Option String → Bool
  | some s => !s.isEmpty
  | none => false

/-- The `system_content` as built by `generate_response` (lines 79-83): the static
prompt, extended with the history when the latter is truthy. -/
def buildSystemContent (conversation_history : Option String) : String :=
  if optStrTruthy conversation_history then
    AIGenerator.SYSTEM_PROMPT ++ "\n\nPrevious conversation:\n"
      ++ conversation_history.getD ""
  else AIGenerator.SYSTEM_PROMPT

/-- Result of `generate_response`: the returned string or the propagated
exception, the trace of every create call of the run (the initial call
first), the trace of tool invocations, the reference of the message list the
run last worked with, and the final store. -/
structure GenResult where
  outcome : Except String String
  calls : List CallParams
  toolInvocations : List (String × ToolInput)
  messagesRef : Nat
  store : MsgStore
deriving Repr, DecidableEq

/-- Embedding of `generate_response(query, conversation_history, tools,
tool_manager)`. -/
def generate_response (g : AIGenerator) (client : Client) (query : String)
    (conversation_history : Option String) (tools : Option (List ToolSchema))
    (tool_manager : Option ToolManager) (store : MsgStore) : GenResult :=
  let system_content := buildSystemContent conversation_history
  -- api_params = {**self.base_params, "messages": [{"role": "user", "content": query}], "system": system_content}
  let alloc := storeAlloc store [{ role := "user", content := MsgContent.ofString query }]
  let mref := alloc.1
  let store := alloc.2
  let bp := g.base_params
  let base : BaseParams :=
    if optListTruthy tools then
      { model := bp.model, temperature := bp.temperature, max_tokens := bp.max_tokens,
        messagesRef := mref, system := system_content,
        tools := some tools, tool_choice := some "auto" }
    else
      { model := bp.model, temperature := bp.temperature, max_tokens := bp.max_tokens,
        messagesRef := mref, system := system_content,
        tools := none, tool_choice := none }
  let firstCall : CallParams :=
    { model := base.model, temperature := base.temperature, max_tokens := base.max_tokens,
      messages := storeRead store mref, system := base.system,
      tools := base.tools, tool_choice := base.tool_choice }
  let response := client 0
  match tool_manager with
  | some tm =>
    if response.stop_reason = "tool_use" then
      let lr := _execute_tool_calling_loop g client response base tm store 1
      { outcome := lr.outcome, calls := firstCall :: lr.genCalls,
        toolInvocations := lr.toolInvocations, messagesRef := lr.messagesRef,
        store := lr.store }
    else
      { outcome := contentIndexZeroText response.content, calls := [firstCall],
        toolInvocations := [], messagesRef := mref, store := store }
  | none =>
    { outcome := contentIndexZeroText response.content, calls := [firstCall],
      toolInvocations := [], messagesRef := mref, store := store }

/-! ## Derived notions used by the statements -/

/-- The initial `{"role": "user", "content": query}` message. -/
def userMsg (query : String) : Message :=
  { role := "user", content := MsgContent.ofString query }

/-- The ASSISTANT message appended for a round: content is exactly the model's
returned content blocks. -/
def assistantMsg (blocks : List ContentBlock) : Message :=
  { role := "assistant", content := MsgContent.ofBlocks blocks }

/-- The USER message bundling a round's tool results. -/
def toolResultsMsg (results : List ToolResultBlock) : Message :=
  { role := "user", content := MsgContent.ofResults results }

/-- The `(id, name, input)` of the `tool_use` blocks of a content list, in
content order. -/
def toolUses : List ContentBlock → List (String × String × ToolInput)
  | [] => []
  | ContentBlock.toolUse id name input :: rest => (id, name, input) :: toolUses rest
  | _ :: rest => toolUses rest

/-- Modelled from the spec: "the first `Text` content block found in the
terminal response's content, scanning in the response's content order; if
none is found, the empty string". -/
def firstTextOrEmpty (blocks : List ContentBlock) : String :=
  match blocks.find? (fun b => match b with | ContentBlock.text _ => true | _ => false) with
  | some (ContentBlock.text t) => t
  | _ => ""

/-- Parameters of the initial create call of `generate_response`. -/
def initialCallParams (g : AIGenerator) (query : String) (hist : Option String)
    (tools : Option (List ToolSchema)) : CallParams :=
  { model := g.model, temperature := 0, max_tokens := 800,
    messages := [userMsg query], system := buildSystemContent hist,
    tools := if optListTruthy tools then some tools else none,
    tool_choice := if optListTruthy tools then some "auto" else none }

/-- Parameters of an in-loop create call made while `current_round <
MAX_TOOL_ROUNDS` (tools and auto tool-choice attached). -/
def loopCallParams (g : AIGenerator) (base : BaseParams)
    (msgs : List Message) : CallParams :=
  { model := g.model, temperature := 0, max_tokens := 800,
    messages := msgs, system := base.system,
    tools := some base.tools.join, tool_choice := some "auto" }

/-- Parameters of the final create call made once `current_round =
MAX_TOOL_ROUNDS` (no tools, no tool_choice). -/
def finalCallParams (g : AIGenerator) (base : BaseParams)
    (msgs : List Message) : CallParams :=
  { model := g.model, temperature := 0, max_tokens := 800,
    messages := msgs, system := base.system,
    tools := none, tool_choice := none }

/-- The `base_params` dict that `generate_response` hands to the loop,
as a function of its arguments (`mref` the reference of the fresh
one-message list). -/
def baseOf (g : AIGenerator) (hist : Option String)
    (tools : Option (List ToolSchema)) (mref : Nat) : BaseParams :=
  if optListTruthy tools then
    { model := g.model, temperature := 0, max_tokens := 800,
      messagesRef := mref, system := buildSystemContent hist,
      tools := some tools, tool_choice := some "auto" }
  else
    { model := g.model, temperature := 0, max_tokens := 800,
      messagesRef := mref, system := buildSystemContent hist,
      tools := none, tool_choice := none }

/-- Result of `loopPure`, the store-free reformulation of the round loop. -/
structure PureLoopResult where
  outcome : Except String String
  genCalls : List CallParams
  toolInvocations : List (String × ToolInput)
  messages : List Message
deriving Repr, DecidableEq

/-- Store-free reformulation of `loopIter`: the message list is threaded as a
value.  `loopIter_eq_pure` proves it equivalent to the store-based
translation. -/
def loopPure (g : AIGenerator) (client : Client) (tool_manager : ToolManager)
    (base : BaseParams) :
    Nat → Nat → Response → List Message → Nat →
    List CallParams → List (String × ToolInput) → PureLoopResult
  | 0, _, response, messages, _, genCalls, invs =>
    { outcome := Except.ok (_extract_text_from_response response),
      genCalls := genCalls, toolInvocations := invs, messages := messages }
  | fuel + 1, current_round, response, messages, callIdx, genCalls, invs =>
    if current_round < AIGenerator.MAX_TOOL_ROUNDS then
      if response.stop_reason ≠ "tool_use" then
        { outcome := Except.ok (_extract_text_from_response response),
          genCalls := genCalls, toolInvocations := invs, messages := messages }
      else
        let messages := messages ++
          [{ role := "assistant", content := MsgContent.ofBlocks response.content }]
        let toolTrace := _execute_tools tool_manager response.content
        match toolTrace.2 with
        | Except.error e =>
          { outcome := Except.error e, genCalls := genCalls,
            toolInvocations := invs ++ toolTrace.1, messages := messages }
        | Except.ok tool_results =>
          let messages :=
            if tool_results.isEmpty then messages
            else messages ++
              [{ role := "user", content := MsgContent.ofResults tool_results }]
          let current_round := current_round + 1
          let bp := g.base_params
          let api_params : CallParams :=
            if current_round < AIGenerator.MAX_TOOL_ROUNDS then
              { model := bp.model, temperature := bp.temperature, max_tokens := bp.max_tokens,
                messages := messages, system := base.system,
                tools := some base.tools.join, tool_choice := some "auto" }
            else
              { model := bp.model, temperature := bp.temperature, max_tokens := bp.max_tokens,
                messages := messages, system := base.system,
                tools := none, tool_choice := none }
          let response := client callIdx
          loopPure g client tool_manager base fuel current_round response messages
            (callIdx + 1) (genCalls ++ [api_params]) (invs ++ toolTrace.1)
    else
      { outcome := Except.ok (_extract_text_from_response response),
        genCalls := genCalls, toolInvocations := invs, messages := messages }

/-- The messages appended for one completed round: the ASSISTANT message with
the model's blocks, then — iff at least one tool result was produced — one
USER message bundling the results. -/
def roundMessages (msgs : List Message) (blocks : List ContentBlock)
    (rs : List ToolResultBlock) : List Message :=
  msgs ++ [assistantMsg blocks] ++ (if rs.isEmpty then [] else [toolResultsMsg rs])

/-- The pure-loop result of a run that enters the tool-calling loop (`mref`
is the reference of the fresh message list built by `generate_response`). -/
def runPure (g : AIGenerator) (client : Client) (query : String)
    (hist : Option String) (tools : Option (List ToolSchema)) (tm : ToolManager)
    (mref : Nat) : PureLoopResult :=
  loopPure g client tm (baseOf g hist tools mref) AIGenerator.MAX_TOOL_ROUNDS 0
    (client 0) [userMsg query] 1 [] []

/-! ## Concrete fixtures used by the witnesses -/

def wGen : AIGenerator := { model := "m" }

def wSearchBlock : ContentBlock := ContentBlock.toolUse "i1" "search" [("query", "x")]

def wOutlineBlock : ContentBlock := ContentBlock.toolUse "i2" "outline" [("course", "c")]

def wToolUseResp : Response := { stop_reason := "tool_use", content := [wSearchBlock] }

def wTwoToolsResp : Response :=
  { stop_reason := "tool_use", content := [wSearchBlock, wOutlineBlock] }

def wNarrationResp : Response :=
  { stop_reason := "tool_use", content := [ContentBlock.text "narration", wSearchBlock] }

def wTextOnlyToolUseResp : Response :=
  { stop_reason := "tool_use", content := [ContentBlock.text "thinking"] }

def wDoneResp : Response := { stop_reason := "end_turn", content := [ContentBlock.text "done"] }

def wEmptyResp : Response := { stop_reason := "end_turn", content := [] }

/-- Requests tool use on calls 0 and 1, then stops. -/
def wClientTwoRounds : Client := fun n => if n ≤ 1 then wToolUseResp else wDoneResp

/-- Requests tool use on call 0 only. -/
def wClientOneRound : Client := fun n => if n = 0 then wToolUseResp else wDoneResp

/-- Requests two tool uses on call 0, then stops. -/
def wClientTwoTools : Client := fun n => if n = 0 then wTwoToolsResp else wDoneResp

/-- Stop reason `tool_use` with zero tool-use blocks on call 0, then stops. -/
def wClientTextOnly : Client := fun n => if n = 0 then wTextOnlyToolUseResp else wDoneResp

def wClientNarration : Client := fun _ => wNarrationResp

def wClientEmpty : Client := fun _ => wEmptyResp

def wTmOk : ToolManager := fun _ _ => Except.ok "res"

def wTmErr : ToolManager := fun _ _ => Except.error "boom"

def wStore : MsgStore := [[{ role := "user", content := MsgContent.ofString "prior" }]]

def wBase : BaseParams :=
  { model := "m", temperature := 0, max_tokens := 800, messagesRef := 0,
    system := "s", tools := some (some ["sch"]), tool_choice := some "auto" }

/-! ## Store lemmas -/

theorem storeRead_alloc_self (store : MsgStore) (v : List Message) :
    storeRead (store ++ [v]) store.length = v := by
  simp [storeRead, List.getElem?_append_right]

theorem storeRead_alloc_lt (store : MsgStore) (v : List Message) (r : Nat)
    (h : r < store.length) : storeRead (store ++ [v]) r = storeRead store r := by
  simp [storeRead, List.getElem?_append_left h]

theorem storeAppend_eq (store : MsgStore) (r : Nat) (m : Message) :
    storeAppend store r m = store.set r (storeRead store r ++ [m]) := rfl

theorem storeRead_storeAppend_self (store : MsgStore) (r : Nat) (m : Message)
    (h : r < store.length) :
    storeRead (storeAppend store r m) r = storeRead store r ++ [m] := by
  simp [storeAppend, storeRead, List.getElem?_set_self, h]

theorem get?_storeAppend_ne (store : MsgStore) (r r' : Nat) (m : Message)
    (h : r ≠ r') : (storeAppend store r' m).get? r = store.get? r := by
  simp [storeAppend, List.getElem?_set_ne (Ne.symm h)]

theorem get?_alloc_lt (store : MsgStore) (v : List Message) (r : Nat)
    (h : r < store.length) : (store ++ [v]).get? r = store.get? r := by
  simp [List.getElem?_append_left h]

theorem storeAppend_length (store : MsgStore) (r : Nat) (m : Message) :
    (storeAppend store r m).length = store.length := by
  simp [storeAppend]

theorem set_storeRead_self (store : MsgStore) (r : Nat) (h : r < store.length) :
    store.set r (storeRead store r) = store := by
  apply List.ext_getElem?
  intro i
  by_cases hi : i = r
  · subst hi
    simp [storeRead, List.getElem?_set_self, h, List.getElem?_eq_getElem h]
  · simp [List.getElem?_set_ne (by omega : r ≠ i)]

theorem storeRead_set_self (store : MsgStore) (r : Nat) (v : List Message)
    (h : r < store.length) : storeRead (store.set r v) r = v := by
  simp [storeRead, List.getElem?_set_self, h]

/-- The store-based loop equals the store-free loop: it only ever writes the
cell `mref`, whose final content is the pure loop's message list. -/
theorem loopIter_eq_pure (g : AIGenerator) (client : Client) (tm : ToolManager)
    (base : BaseParams) :
    ∀ (fuel current_round : Nat) (response : Response) (store : MsgStore)
      (mref callIdx : Nat) (genCalls : List CallParams)
      (invs : List (String × ToolInput)), mref < store.length →
      loopIter g client tm base fuel current_round response store mref callIdx
          genCalls invs =
        { outcome := (loopPure g client tm base fuel current_round response
            (storeRead store mref) callIdx genCalls invs).outcome,
          genCalls := (loopPure g client tm base fuel current_round response
            (storeRead store mref) callIdx genCalls invs).genCalls,
          toolInvocations := (loopPure g client tm base fuel current_round response
            (storeRead store mref) callIdx genCalls invs).toolInvocations,
          messagesRef := mref,
          store := store.set mref (loopPure g client tm base fuel current_round
            response (storeRead store mref) callIdx genCalls invs).messages } := by
  intro fuel
  induction fuel with
  | zero =>
    intro current_round response store mref callIdx genCalls invs h
    simp [loopIter, loopPure, set_storeRead_self store mref h]
  | succ fuel ih =>
    intro current_round response store mref callIdx genCalls invs h
    by_cases hcr : current_round < AIGenerator.MAX_TOOL_ROUNDS
    · by_cases hsr : response.stop_reason = "tool_use"
      · rcases hres : (_execute_tools tm response.content).2 with e | tool_results
        · simp [loopIter, loopPure, hcr, hsr, hres,
            storeAppend_eq, List.set_set,
            storeRead_storeAppend_self store mref _ h]
        · by_cases hrs : tool_results.isEmpty
          · have h1 : mref < (storeAppend store mref
                { role := "assistant", content := MsgContent.ofBlocks response.content }).length := by
              rw [storeAppend_length]; exact h
            simp only [loopIter, loopPure, hcr, if_true, hsr, ne_eq,
              not_true_eq_false, if_false, hres, hrs, if_true]
            rw [ih _ _ _ _ _ _ _ h1]
            simp [storeAppend_eq, List.set_set, storeRead_set_self _ _ _ h, h]
          · rw [Bool.not_eq_true] at hrs
            have h1 : mref < (storeAppend (storeAppend store mref
                { role := "assistant", content := MsgContent.ofBlocks response.content }) mref
                { role := "user", content := MsgContent.ofResults tool_results }).length := by
              rw [storeAppend_length, storeAppend_length]; exact h
            simp only [loopIter, loopPure, hcr, if_true, hsr, ne_eq,
              not_true_eq_false, if_false, hres, hrs, Bool.false_eq_true]
            rw [ih _ _ _ _ _ _ _ h1]
            simp [storeAppend_eq, List.set_set, storeRead_set_self _ _ _ h, h]
      · simp [loopIter, loopPure, hcr, hsr, set_storeRead_self store mref h]
    · simp [loopIter, loopPure, hcr, set_storeRead_self store mref h]

/-! ## `_execute_tools` characterizations -/

/-- When the tool manager never raises, `_execute_tools` invokes it once per
`tool_use` block, in content order, and returns one `ToolResult` per
invocation, with matching `tool_use_id`s, in the same order. -/
theorem execute_tools_of_ok (tm : ToolManager) (f : String → ToolInput → String)
    (htm : ∀ n i, tm n i = Except.ok (f n i)) (bs : List ContentBlock) :
    _execute_tools tm bs =
      ((toolUses bs).map (fun t => (t.2.1, t.2.2)),
       Except.ok ((toolUses bs).map
         (fun t => { tool_use_id := t.1, content := f t.2.1 t.2.2 }))) := by
  induction bs with
  | nil => rfl
  | cons b rest ih =>
    cases b with
    | text t => simpa [_execute_tools, toolUses] using ih
    | other ty => simpa [_execute_tools, toolUses] using ih
    | toolUse id name input =>
      simp [_execute_tools, toolUses, htm, ih]

/-- A content list without `tool_use` blocks executes no tools and produces
no results. -/
theorem execute_tools_of_no_toolUse (tm : ToolManager) (bs : List ContentBlock)
    (h : toolUses bs = []) : _execute_tools tm bs = ([], Except.ok []) := by
  induction bs with
  | nil => rfl
  | cons b rest ih =>
    cases b with
    | text t => simpa [_execute_tools, toolUses] using ih (by simpa [toolUses] using h)
    | other ty => simpa [_execute_tools, toolUses] using ih (by simpa [toolUses] using h)
    | toolUse id name input => simp [toolUses] at h

/-! ## Run characterizations (one lemma per shape of run) -/

theorem storeRead_alloc2_self (store : MsgStore) (a b : List Message) :
    storeRead (store ++ [a, b]) (store.length + 1) = b := by
  have h := storeRead_alloc_self (store ++ [a]) b
  simpa [List.append_assoc] using h

theorem set_alloc2_last (store : MsgStore) (a b c : List Message) :
    (store ++ [a, b]).set (store.length + 1) c = store ++ [a, c] := by
  induction store with
  | nil => rfl
  | cons x xs ih => simp [ih]

/-- A run whose first response requests tool use (with a tool manager
present) is the initial call followed by the pure loop. -/
theorem run_with_loop (g : AIGenerator) (client : Client) (query : String)
    (hist : Option String) (tools : Option (List ToolSchema)) (tm : ToolManager)
    (store : MsgStore) (h0 : (client 0).stop_reason = "tool_use") :
    generate_response g client query hist tools (some tm) store =
      { outcome := (runPure g client query hist tools tm store.length).outcome,
        calls := initialCallParams g query hist tools ::
          (runPure g client query hist tools tm store.length).genCalls,
        toolInvocations :=
          (runPure g client query hist tools tm store.length).toolInvocations,
        messagesRef := store.length + 1,
        store := store ++ [[userMsg query],
          (runPure g client query hist tools tm store.length).messages] } := by
  cases htr : optListTruthy tools <;>
  · simp only [generate_response, _execute_tool_calling_loop, storeAlloc,
      storeRead_alloc_self, htr, Bool.false_eq_true, if_false, if_true, h0,
      List.append_assoc, List.singleton_append, List.cons_append, List.nil_append,
      List.length_append, List.length_cons, List.length_nil, Nat.zero_add]
    rw [loopIter_eq_pure g client tm]
    · simp [runPure, baseOf, htr, userMsg, storeRead_alloc2_self, set_alloc2_last,
        AIGenerator.base_params, initialCallParams]
    · simp

theorem ite_append_nil {c : Prop} [Decidable c] (m : List Message) (u : Message) :
    (if c then m else m ++ [u]) = m ++ (if c then [] else [u]) := by
  split <;> simp

/-- Pure loop, round 0 raises during tool execution: the error propagates,
no user message is appended, no further create calls happen. -/
theorem loopPure_round0_err (g : AIGenerator) (client : Client) (tm : ToolManager)
    (base : BaseParams) (r0 : Response) (msgs : List Message) (e : String)
    (h0 : r0.stop_reason = "tool_use")
    (hex : (_execute_tools tm r0.content).2 = Except.error e) :
    loopPure g client tm base AIGenerator.MAX_TOOL_ROUNDS 0 r0 msgs 1 [] [] =
      { outcome := Except.error e, genCalls := [],
        toolInvocations := (_execute_tools tm r0.content).1,
        messages := msgs ++ [assistantMsg r0.content] } := by
  simp [loopPure, AIGenerator.MAX_TOOL_ROUNDS, h0, hex, assistantMsg]

/-- Pure loop, round 0 executes fine and the second response stops: one
in-loop create call (tools attached), its text is returned. -/
theorem loopPure_round0_ok_stop1 (g : AIGenerator) (client : Client)
    (tm : ToolManager) (base : BaseParams) (r0 : Response) (msgs : List Message)
    (invs0 : List (String × ToolInput)) (rs0 : List ToolResultBlock)
    (h0 : r0.stop_reason = "tool_use")
    (hex : _execute_tools tm r0.content = (invs0, Except.ok rs0))
    (h1 : (client 1).stop_reason ≠ "tool_use") :
    loopPure g client tm base AIGenerator.MAX_TOOL_ROUNDS 0 r0 msgs 1 [] [] =
      { outcome := Except.ok (_extract_text_from_response (client 1)),
        genCalls := [loopCallParams g base (roundMessages msgs r0.content rs0)],
        toolInvocations := invs0,
        messages := roundMessages msgs r0.content rs0 } := by
  simp [loopPure, AIGenerator.MAX_TOOL_ROUNDS, h0, hex, h1, roundMessages,
    assistantMsg, toolResultsMsg, loopCallParams, AIGenerator.base_params,
    ite_append_nil]
  split_ifs <;> simp

/-- Pure loop, two tool-use rounds: two more create calls, the last one
without tools, and its text returned whatever its stop reason. -/
theorem loopPure_two_rounds (g : AIGenerator) (client : Client)
    (tm : ToolManager) (base : BaseParams) (r0 : Response) (msgs : List Message)
    (invs0 invs1 : List (String × ToolInput)) (rs0 rs1 : List ToolResultBlock)
    (h0 : r0.stop_reason = "tool_use")
    (hex0 : _execute_tools tm r0.content = (invs0, Except.ok rs0))
    (h1 : (client 1).stop_reason = "tool_use")
    (hex1 : _execute_tools tm (client 1).content = (invs1, Except.ok rs1)) :
    loopPure g client tm base AIGenerator.MAX_TOOL_ROUNDS 0 r0 msgs 1 [] [] =
      { outcome := Except.ok (_extract_text_from_response (client 2)),
        genCalls := [loopCallParams g base (roundMessages msgs r0.content rs0),
          finalCallParams g base
            (roundMessages (roundMessages msgs r0.content rs0) (client 1).content rs1)],
        toolInvocations := invs0 ++ invs1,
        messages :=
          roundMessages (roundMessages msgs r0.content rs0) (client 1).content rs1 } := by
  simp [loopPure, AIGenerator.MAX_TOOL_ROUNDS, h0, hex0, h1, hex1, roundMessages,
    assistantMsg, toolResultsMsg, loopCallParams, finalCallParams,
    AIGenerator.base_params, ite_append_nil]
  split_ifs <;> simp

/-- Pure loop, round 0 fine, round 1 raises during tool execution: the error
propagates after the single in-loop create call. -/
theorem loopPure_round1_err (g : AIGenerator) (client : Client)
    (tm : ToolManager) (base : BaseParams) (r0 : Response) (msgs : List Message)
    (invs0 : List (String × ToolInput)) (rs0 : List ToolResultBlock) (e : String)
    (h0 : r0.stop_reason = "tool_use")
    (hex0 : _execute_tools tm r0.content = (invs0, Except.ok rs0))
    (h1 : (client 1).stop_reason = "tool_use")
    (hex1 : (_execute_tools tm (client 1).content).2 = Except.error e) :
    loopPure g client tm base AIGenerator.MAX_TOOL_ROUNDS 0 r0 msgs 1 [] [] =
      { outcome := Except.error e,
        genCalls := [loopCallParams g base (roundMessages msgs r0.content rs0)],
        toolInvocations := invs0 ++ (_execute_tools tm (client 1).content).1,
        messages := roundMessages msgs r0.content rs0 ++
          [assistantMsg (client 1).content] } := by
  simp [loopPure, AIGenerator.MAX_TOOL_ROUNDS, h0, hex0, h1, hex1, roundMessages,
    assistantMsg, toolResultsMsg, loopCallParams, AIGenerator.base_params,
    ite_append_nil]
  split_ifs <;> simp

/-- The loop makes at most `fuel` further create calls. -/
theorem loopPure_genCalls_le (g : AIGenerator) (client : Client) (tm : ToolManager)
    (base : BaseParams) :
    ∀ (fuel current_round : Nat) (response : Response) (msgs : List Message)
      (callIdx : Nat) (genCalls : List CallParams) (invs : List (String × ToolInput)),
      (loopPure g client tm base fuel current_round response msgs callIdx
        genCalls invs).genCalls.length ≤ genCalls.length + fuel := by
  intro fuel
  induction fuel with
  | zero =>
    intro current_round response msgs callIdx genCalls invs
    simp [loopPure]
  | succ fuel ih =>
    intro current_round response msgs callIdx genCalls invs
    simp only [loopPure]
    split
    · split
      · simp
      · split
        · simp
        · refine le_trans (ih _ _ _ _ _ _) ?_
          simp; omega
    · simp

/-- Every create call made by the loop carries the fixed
`{model, temperature, max_tokens}` of `self.base_params`. -/
theorem loopPure_calls_fixed (g : AIGenerator) (client : Client) (tm : ToolManager)
    (base : BaseParams) :
    ∀ (fuel current_round : Nat) (response : Response) (msgs : List Message)
      (callIdx : Nat) (genCalls : List CallParams) (invs : List (String × ToolInput))
      (p : CallParams),
      p ∈ (loopPure g client tm base fuel current_round response msgs callIdx
        genCalls invs).genCalls →
      p ∈ genCalls ∨ (p.temperature = 0 ∧ p.max_tokens = 800 ∧ p.model = g.model) := by
  intro fuel
  induction fuel with
  | zero =>
    intro current_round response msgs callIdx genCalls invs p hp
    simp [loopPure] at hp
    exact Or.inl hp
  | succ fuel ih =>
    intro current_round response msgs callIdx genCalls invs p hp
    simp only [loopPure] at hp
    split at hp
    · split at hp
      · exact Or.inl (by simpa using hp)
      · split at hp
        · exact Or.inl (by simpa using hp)
        · rcases ih _ _ _ _ _ _ _ hp with h | h
          · rcases List.mem_append.mp h with h | h
            · exact Or.inl h
            · refine Or.inr ?_
              rcases List.mem_singleton.mp h with rfl
              split <;> simp [AIGenerator.base_params]
          · exact Or.inr h
    · exact Or.inl (by simpa using hp)

/-- Without a tool manager, exactly one create call is made and
`response.content[0].text` is returned. -/
theorem run_no_manager (g : AIGenerator) (client : Client) (query : String)
    (hist : Option String) (tools : Option (List ToolSchema)) (store : MsgStore) :
    generate_response g client query hist tools none store =
      { outcome := contentIndexZeroText (client 0).content,
        calls := [initialCallParams g query hist tools],
        toolInvocations := [], messagesRef := store.length,
        store := store ++ [[userMsg query]] } := by
  cases htr : optListTruthy tools <;>
    simp [generate_response, storeAlloc, storeRead_alloc_self, htr,
      initialCallParams, userMsg, AIGenerator.base_params]

/-- With a tool manager but a first response that does not request tool use,
exactly one create call is made and `response.content[0].text` is returned. -/
theorem run_first_not_tool_use (g : AIGenerator) (client : Client) (query : String)
    (hist : Option String) (tools : Option (List ToolSchema)) (tm : ToolManager)
    (store : MsgStore) (h0 : (client 0).stop_reason ≠ "tool_use") :
    generate_response g client query hist tools (some tm) store =
      { outcome := contentIndexZeroText (client 0).content,
        calls := [initialCallParams g query hist tools],
        toolInvocations := [], messagesRef := store.length,
        store := store ++ [[userMsg query]] } := by
  cases htr : optListTruthy tools <;>
    simp [generate_response, storeAlloc, storeRead_alloc_self, htr, h0,
      initialCallParams, userMsg, AIGenerator.base_params]

/-! ## Claim theorems -/

/-- C10: `_execute_tool_calling_loop` never mutates the caller-supplied
`base_params` dict or the message list it contains: the loop copies the
messages list before appending, so after the orchestration returns (or
raises) every pre-existing list object — in particular the one referenced by
`base_params["messages"]` — is unchanged; likewise for a whole
`generate_response` run. -/
theorem C10_loop_frame (g : AIGenerator) (client : Client) (resp : Response)
    (base : BaseParams) (tm : ToolManager) (store : MsgStore) (callIdx : Nat)
    (r : Nat) (hr : r < store.length) :
    (_execute_tool_calling_loop g client resp base tm store callIdx).store.get? r
      = store.get? r ∧
    ∀ (query : String) (hist : Option String) (tools : Option (List ToolSchema))
      (tmgr : Option ToolManager),
      (generate_response g client query hist tools tmgr store).store.get? r
        = store.get? r := by
  constructor
  · simp only [_execute_tool_calling_loop, storeAlloc]
    rw [loopIter_eq_pure g client tm]
    · simp only [List.get?_eq_getElem?]
      rw [List.getElem?_set_ne (by omega : store.length ≠ r)]
      exact List.getElem?_append_left hr
    · simp
  · intro query hist tools tmgr
    cases tmgr with
    | none =>
      rw [run_no_manager]
      simp only [List.get?_eq_getElem?]
      exact List.getElem?_append_left hr
    | some tm' =>
      by_cases h0 : (client 0).stop_reason = "tool_use"
      · rw [run_with_loop g client query hist tools tm' store h0]
        simp only [List.get?_eq_getElem?]
        exact List.getElem?_append_left hr
      · rw [run_first_not_tool_use g client query hist tools tm' store h0]
        simp only [List.get?_eq_getElem?]
        exact List.getElem?_append_left hr

theorem C10_loop_frame_witness :
    0 < wStore.length ∧
    ((_execute_tool_calling_loop wGen wClientTwoRounds wToolUseResp wBase wTmOk
        wStore 1).store.get? 0 = wStore.get? 0 ∧
      ∀ (query : String) (hist : Option String) (tools : Option (List ToolSchema))
        (tmgr : Option ToolManager),
        (generate_response wGen wClientTwoRounds query hist tools tmgr
          wStore).store.get? 0 = wStore.get? 0) :=
  ⟨by decide,
   C10_loop_frame wGen wClientTwoRounds wToolUseResp wBase wTmOk wStore 1 0 (by decide)⟩

/-- C9: when the first response requests tool use but no tool manager was
supplied, no tool is executed, no further create call is made, and the text
of the first content block of that tool-use response is returned directly. -/
theorem C9_no_manager_direct (g : AIGenerator) (client : Client) (query : String)
    (hist : Option String) (tools : Option (List ToolSchema)) (store : MsgStore)
    (t : String) (rest : List ContentBlock)
    (h0 : (client 0).stop_reason = "tool_use")
    (hc : (client 0).content = ContentBlock.text t :: rest) :
    (generate_response g client query hist tools none store).outcome = Except.ok t ∧
    (generate_response g client query hist tools none store).calls.length = 1 ∧
    (generate_response g client query hist tools none store).toolInvocations = [] := by
  rw [run_no_manager]
  simp [hc, contentIndexZeroText, ContentBlock.textAttr]

theorem C9_no_manager_direct_witness :
    (wClientNarration 0).stop_reason = "tool_use" ∧
    ((generate_response wGen wClientNarration "q" none (some ["sch"]) none []).outcome
        = Except.ok "narration" ∧
      (generate_response wGen wClientNarration "q" none (some ["sch"]) none []).calls.length
        = 1 ∧
      (generate_response wGen wClientNarration "q" none (some ["sch"]) none []).toolInvocations
        = []) :=
  ⟨by decide,
   C9_no_manager_direct wGen wClientNarration "q" none (some ["sch"]) []
     "narration" [wSearchBlock] (by decide) (by decide)⟩

/-- C3: when executing a tool-use block raises, the orchestrator does not
catch the exception: it propagates out of the whole run, no tool-result USER
message is appended for that round, and no create call is made after the
failing execution. -/
theorem C3_tool_error_propagates (g : AIGenerator) (client : Client)
    (query : String) (hist : Option String) (tools : Option (List ToolSchema))
    (tm : ToolManager) (store : MsgStore) (e : String)
    (h0 : (client 0).stop_reason = "tool_use")
    (hex : (_execute_tools tm (client 0).content).2 = Except.error e) :
    (generate_response g client query hist tools (some tm) store).outcome
      = Except.error e ∧
    (generate_response g client query hist tools (some tm) store).calls.length = 1 ∧
    storeRead (generate_response g client query hist tools (some tm) store).store
        (generate_response g client query hist tools (some tm) store).messagesRef
      = [userMsg query, assistantMsg ((client 0).content)] := by
  rw [run_with_loop g client query hist tools tm store h0]
  simp only [runPure]
  rw [loopPure_round0_err g client tm _ _ _ e h0 hex]
  simp [storeRead_alloc2_self, assistantMsg]

theorem C3_tool_error_propagates_witness :
    (wClientTwoRounds 0).stop_reason = "tool_use" ∧
    (_execute_tools wTmErr (wClientTwoRounds 0).content).2 = Except.error "boom" ∧
    ((generate_response wGen wClientTwoRounds "q" none (some ["sch"])
        (some wTmErr) []).outcome = Except.error "boom" ∧
      (generate_response wGen wClientTwoRounds "q" none (some ["sch"])
        (some wTmErr) []).calls.length = 1 ∧
      storeRead (generate_response wGen wClientTwoRounds "q" none (some ["sch"])
          (some wTmErr) []).store
          (generate_response wGen wClientTwoRounds "q" none (some ["sch"])
            (some wTmErr) []).messagesRef
        = [userMsg "q", assistantMsg ((wClientTwoRounds 0).content)]) :=
  ⟨by decide, by decide,
   C3_tool_error_propagates wGen wClientTwoRounds "q" none (some ["sch"])
     wTmErr [] "boom" (by decide) (by decide)⟩

theorem optListTruthy_some (ts : List ToolSchema) (h : ts ≠ []) :
    optListTruthy (some ts) = true := by
  cases ts with
  | nil => exact absurd rfl h
  | cons a l => rfl

/-- C1: a run with tool use requested in both rounds makes exactly
`MAX_TOOL_ROUNDS + 1` create calls; tool schemas and auto tool-choice are
attached to every call made while `round < MAX_TOOL_ROUNDS`, and the final
call carries neither a tools nor a tool_choice field. -/
theorem C1_max_rounds_call_shape (g : AIGenerator) (client : Client)
    (query : String) (hist : Option String) (ts : List ToolSchema)
    (tm : ToolManager) (f : String → ToolInput → String) (store : MsgStore)
    (hts : ts ≠ [])
    (htm : ∀ n i, tm n i = Except.ok (f n i))
    (h0 : (client 0).stop_reason = "tool_use")
    (h1 : (client 1).stop_reason = "tool_use") :
    (generate_response g client query hist (some ts) (some tm) store).calls.length
      = AIGenerator.MAX_TOOL_ROUNDS + 1 ∧
    (generate_response g client query hist (some ts) (some tm) store).calls.map
        (fun p => (p.tools, p.tool_choice))
      = [(some (some ts), some "auto"), (some (some ts), some "auto"),
         (none, none)] := by
  rw [run_with_loop g client query hist (some ts) tm store h0]
  simp only [runPure]
  rw [loopPure_two_rounds g client tm _ _ _ _ _ _ _ h0
    (execute_tools_of_ok tm f htm _) h1 (execute_tools_of_ok tm f htm _)]
  simp [initialCallParams, loopCallParams, finalCallParams, baseOf,
    optListTruthy_some _ hts, AIGenerator.MAX_TOOL_ROUNDS]

theorem C1_max_rounds_call_shape_witness :
    (["sch"] : List ToolSchema) ≠ [] ∧
    (wClientTwoRounds 0).stop_reason = "tool_use" ∧
    (wClientTwoRounds 1).stop_reason = "tool_use" ∧
    ((generate_response wGen wClientTwoRounds "q" none (some ["sch"])
        (some wTmOk) []).calls.length = AIGenerator.MAX_TOOL_ROUNDS + 1 ∧
      (generate_response wGen wClientTwoRounds "q" none (some ["sch"])
        (some wTmOk) []).calls.map (fun p => (p.tools, p.tool_choice))
        = [(some (some ["sch"]), some "auto"), (some (some ["sch"]), some "auto"),
           (none, none)]) :=
  ⟨by decide, by decide, by decide,
   C1_max_rounds_call_shape wGen wClientTwoRounds "q" none ["sch"] wTmOk
     (fun _ _ => "res") [] (by decide) (fun n i => rfl) (by decide) (by decide)⟩

/-- C5: multiple tool-use blocks in one response are executed once each,
sequentially in content order; each produced `ToolResult` carries the
corresponding block id, and all results of the round are batched into one
USER message, in the same order. -/
theorem C5_multi_tool_order (g : AIGenerator) (client : Client) (query : String)
    (hist : Option String) (tools : Option (List ToolSchema)) (tm : ToolManager)
    (f : String → ToolInput → String) (store : MsgStore)
    (htm : ∀ n i, tm n i = Except.ok (f n i))
    (h0 : (client 0).stop_reason = "tool_use")
    (hne : toolUses (client 0).content ≠ [])
    (h1 : (client 1).stop_reason ≠ "tool_use") :
    (generate_response g client query hist tools (some tm) store).toolInvocations
      = (toolUses (client 0).content).map (fun t => (t.2.1, t.2.2)) ∧
    (generate_response g client query hist tools (some tm) store).calls.map
        CallParams.messages
      = [[userMsg query],
         [userMsg query, assistantMsg ((client 0).content),
          toolResultsMsg ((toolUses (client 0).content).map
            (fun t => { tool_use_id := t.1, content := f t.2.1 t.2.2 }))]] := by
  rw [run_with_loop g client query hist tools tm store h0]
  simp only [runPure]
  rw [loopPure_round0_ok_stop1 g client tm _ _ _ _ _ h0
    (execute_tools_of_ok tm f htm _) h1]
  have hrs : ((toolUses (client 0).content).map
      (fun t => ({ tool_use_id := t.1, content := f t.2.1 t.2.2 } : ToolResultBlock)))
      ≠ [] := by
    simpa using hne
  simp [initialCallParams, loopCallParams, roundMessages, hrs]

theorem C5_multi_tool_order_witness :
    (wClientTwoTools 0).stop_reason = "tool_use" ∧
    toolUses (wClientTwoTools 0).content ≠ [] ∧
    (wClientTwoTools 1).stop_reason ≠ "tool_use" ∧
    ((generate_response wGen wClientTwoTools "q" none (some ["sch"])
        (some wTmOk) []).toolInvocations
        = [("search", [("query", "x")]), ("outline", [("course", "c")])] ∧
      (generate_response wGen wClientTwoTools "q" none (some ["sch"])
        (some wTmOk) []).calls.map CallParams.messages
        = [[userMsg "q"],
           [userMsg "q", assistantMsg [wSearchBlock, wOutlineBlock],
            toolResultsMsg [{ tool_use_id := "i1", content := "res" },
              { tool_use_id := "i2", content := "res" }]]]) := by
  refine ⟨by decide, by decide, by decide, ?_⟩
  have h := C5_multi_tool_order wGen wClientTwoTools "q" none (some ["sch"])
    wTmOk (fun _ _ => "res") [] (fun n i => rfl) (by decide) (by decide) (by decide)
  exact ⟨by rw [h.1]; decide, by rw [h.2]; decide⟩

/-- C6: a response with `stop_reason == "tool_use"` but zero tool-use blocks
still appends the ASSISTANT message, executes no tools, appends no
tool-result USER message, still increments the round counter, and the loop
calls the model again. -/
theorem C6_zero_tool_blocks (g : AIGenerator) (client : Client) (query : String)
    (hist : Option String) (tools : Option (List ToolSchema)) (tm : ToolManager)
    (store : MsgStore)
    (h0 : (client 0).stop_reason = "tool_use")
    (hzero : toolUses (client 0).content = [])
    (h1 : (client 1).stop_reason ≠ "tool_use") :
    (generate_response g client query hist tools (some tm) store).calls.length = 2 ∧
    (generate_response g client query hist tools (some tm) store).toolInvocations
      = [] ∧
    (generate_response g client query hist tools (some tm) store).calls.map
        CallParams.messages
      = [[userMsg query], [userMsg query, assistantMsg ((client 0).content)]] ∧
    ((generate_response g client query hist tools (some tm) store).calls.get? 1).map
        CallParams.tool_choice = some (some "auto") ∧
    (generate_response g client query hist tools (some tm) store).outcome
      = Except.ok (_extract_text_from_response (client 1)) := by
  rw [run_with_loop g client query hist tools tm store h0]
  simp only [runPure]
  rw [loopPure_round0_ok_stop1 g client tm _ _ _ _ _ h0
    (execute_tools_of_no_toolUse tm _ hzero) h1]
  simp [initialCallParams, loopCallParams, roundMessages]

theorem C6_zero_tool_blocks_witness :
    (wClientTextOnly 0).stop_reason = "tool_use" ∧
    toolUses (wClientTextOnly 0).content = [] ∧
    (wClientTextOnly 1).stop_reason ≠ "tool_use" ∧
    ((generate_response wGen wClientTextOnly "q" none (some ["sch"])
        (some wTmOk) []).calls.length = 2 ∧
      (generate_response wGen wClientTextOnly "q" none (some ["sch"])
        (some wTmOk) []).toolInvocations = [] ∧
      (generate_response wGen wClientTextOnly "q" none (some ["sch"])
        (some wTmOk) []).calls.map CallParams.messages
        = [[userMsg "q"], [userMsg "q", assistantMsg [ContentBlock.text "thinking"]]] ∧
      ((generate_response wGen wClientTextOnly "q" none (some ["sch"])
        (some wTmOk) []).calls.get? 1).map CallParams.tool_choice
        = some (some "auto") ∧
      (generate_response wGen wClientTextOnly "q" none (some ["sch"])
        (some wTmOk) []).outcome = Except.ok "done") :=
  ⟨by decide, by decide, by decide,
   C6_zero_tool_blocks wGen wClientTextOnly "q" none (some ["sch"]) wTmOk []
     (by decide) (by decide) (by decide)⟩

/-- C7: the loop terminates: any run makes at most `MAX_TOOL_ROUNDS + 1`
create calls; a first response that does not request tool use ends the run
after that single call; and when both rounds request tool use, exactly one
more tool-free call is made and its text returned regardless of its stop
reason. -/
theorem C7_termination_bounds (g : AIGenerator) (client : Client) (query : String)
    (hist : Option String) (tools : Option (List ToolSchema)) (store : MsgStore) :
    (∀ tmgr : Option ToolManager,
      (generate_response g client query hist tools tmgr store).calls.length
        ≤ AIGenerator.MAX_TOOL_ROUNDS + 1) ∧
    ((client 0).stop_reason ≠ "tool_use" →
      ∀ tmgr : Option ToolManager,
        (generate_response g client query hist tools tmgr store).calls.length = 1) ∧
    (∀ (tm : ToolManager) (f : String → ToolInput → String),
      (∀ n i, tm n i = Except.ok (f n i)) →
      (client 0).stop_reason = "tool_use" → (client 1).stop_reason = "tool_use" →
      (generate_response g client query hist tools (some tm) store).calls.length
          = AIGenerator.MAX_TOOL_ROUNDS + 1 ∧
      ((generate_response g client query hist tools (some tm) store).calls.get?
          AIGenerator.MAX_TOOL_ROUNDS).map (fun p => (p.tools, p.tool_choice))
        = some (none, none) ∧
      (generate_response g client query hist tools (some tm) store).outcome
        = Except.ok (_extract_text_from_response (client 2))) := by
  refine ⟨?_, ?_, ?_⟩
  · intro tmgr
    cases tmgr with
    | none => rw [run_no_manager]; simp [AIGenerator.MAX_TOOL_ROUNDS]
    | some tm =>
      by_cases h0 : (client 0).stop_reason = "tool_use"
      · rw [run_with_loop g client query hist tools tm store h0]
        simp only [runPure, List.length_cons]
        have h := loopPure_genCalls_le g client tm
          (baseOf g hist tools store.length) AIGenerator.MAX_TOOL_ROUNDS 0
          (client 0) [userMsg query] 1 [] []
        simp only [List.length_nil, Nat.zero_add] at h
        omega
      · rw [run_first_not_tool_use g client query hist tools tm store h0]
        simp [AIGenerator.MAX_TOOL_ROUNDS]
  · intro h0 tmgr
    cases tmgr with
    | none => rw [run_no_manager]; rfl
    | some tm => rw [run_first_not_tool_use g client query hist tools tm store h0]; rfl
  · intro tm f htm h0 h1
    rw [run_with_loop g client query hist tools tm store h0]
    simp only [runPure]
    rw [loopPure_two_rounds g client tm _ _ _ _ _ _ _ h0
      (execute_tools_of_ok tm f htm _) h1 (execute_tools_of_ok tm f htm _)]
    simp [finalCallParams, AIGenerator.MAX_TOOL_ROUNDS]

theorem C7_termination_bounds_witness :
    ((∀ tmgr : Option ToolManager,
        (generate_response wGen wClientTwoRounds "q" none (some ["sch"]) tmgr
          []).calls.length ≤ AIGenerator.MAX_TOOL_ROUNDS + 1) ∧
      ((wClientTwoRounds 0).stop_reason ≠ "tool_use" →
        ∀ tmgr : Option ToolManager,
          (generate_response wGen wClientTwoRounds "q" none (some ["sch"]) tmgr
            []).calls.length = 1) ∧
      (∀ (tm : ToolManager) (f : String → ToolInput → String),
        (∀ n i, tm n i = Except.ok (f n i)) →
        (wClientTwoRounds 0).stop_reason = "tool_use" →
        (wClientTwoRounds 1).stop_reason = "tool_use" →
        (generate_response wGen wClientTwoRounds "q" none (some ["sch"])
          (some tm) []).calls.length = AIGenerator.MAX_TOOL_ROUNDS + 1 ∧
        ((generate_response wGen wClientTwoRounds "q" none (some ["sch"])
          (some tm) []).calls.get? AIGenerator.MAX_TOOL_ROUNDS).map
            (fun p => (p.tools, p.tool_choice)) = some (none, none) ∧
        (generate_response wGen wClientTwoRounds "q" none (some ["sch"])
          (some tm) []).outcome
          = Except.ok (_extract_text_from_response (wClientTwoRounds 2)))) :=
  C7_termination_bounds wGen wClientTwoRounds "q" none (some ["sch"]) []

/-- C8: every create call of a run — the initial one and every in-loop one —
carries temperature 0, max_tokens 800 and the configured model identifier. -/
theorem C8_fixed_generation_params (g : AIGenerator) (client : Client)
    (query : String) (hist : Option String) (tools : Option (List ToolSchema))
    (tmgr : Option ToolManager) (store : MsgStore) (p : CallParams)
    (hp : p ∈ (generate_response g client query hist tools tmgr store).calls) :
    p.temperature = 0 ∧ p.max_tokens = 800 ∧ p.model = g.model := by
  cases tmgr with
  | none =>
    rw [run_no_manager] at hp
    rcases List.mem_singleton.mp hp with rfl
    simp [initialCallParams]
  | some tm =>
    by_cases h0 : (client 0).stop_reason = "tool_use"
    · rw [run_with_loop g client query hist tools tm store h0] at hp
      rcases List.mem_cons.mp hp with rfl | hp'
      · simp [initialCallParams]
      · rcases loopPure_calls_fixed g client tm _ _ _ _ _ _ _ _ _ hp' with h | h
        · simp at h
        · exact h
    · rw [run_first_not_tool_use g client query hist tools tm store h0] at hp
      rcases List.mem_singleton.mp hp with rfl
      simp [initialCallParams]

theorem C8_fixed_generation_params_witness :
    initialCallParams wGen "q" none (some ["sch"])
      ∈ (generate_response wGen wClientTwoRounds "q" none (some ["sch"])
        (some wTmOk) []).calls ∧
    ((initialCallParams wGen "q" none (some ["sch"])).temperature = 0 ∧
      (initialCallParams wGen "q" none (some ["sch"])).max_tokens = 800 ∧
      (initialCallParams wGen "q" none (some ["sch"])).model = wGen.model) :=
  ⟨by decide,
   C8_fixed_generation_params wGen wClientTwoRounds "q" none (some ["sch"])
     (some wTmOk) [] (initialCallParams wGen "q" none (some ["sch"])) (by decide)⟩

/-- C4: within a run the message history only grows: whenever call `i+1`
exists, its messages are those of call `i` extended with exactly one
ASSISTANT message holding the model's blocks verbatim and — iff at least one
tool result was produced — exactly one USER message bundling all of that
round's results, in that order; earlier messages are never removed or
rewritten. -/
theorem C4_history_per_round (g : AIGenerator) (client : Client) (query : String)
    (hist : Option String) (tools : Option (List ToolSchema)) (tm : ToolManager)
    (store : MsgStore) (i : Nat) (pi pj : CallParams)
    (hi : (generate_response g client query hist tools (some tm) store).calls.get? i
      = some pi)
    (hj : (generate_response g client query hist tools (some tm) store).calls.get? (i + 1)
      = some pj) :
    ∃ rs : List ToolResultBlock,
      (_execute_tools tm (client i).content).2 = Except.ok rs ∧
      pj.messages = pi.messages ++ [assistantMsg ((client i).content)] ++
        (if rs.isEmpty then [] else [toolResultsMsg rs]) := by
  by_cases h0 : (client 0).stop_reason = "tool_use"
  case neg =>
    rw [run_first_not_tool_use g client query hist tools tm store h0] at hj
    simp at hj
  case pos =>
    rw [run_with_loop g client query hist tools tm store h0] at hi hj
    simp only [runPure] at hi hj
    rcases hp0 : _execute_tools tm (client 0).content with ⟨invs0, res0⟩
    cases res0 with
    | error e =>
      rw [loopPure_round0_err g client tm _ _ _ e h0 (by rw [hp0])] at hj
      simp at hj
    | ok rs0 =>
      by_cases h1 : (client 1).stop_reason = "tool_use"
      case neg =>
        rw [loopPure_round0_ok_stop1 g client tm _ _ _ _ _ h0 hp0 h1] at hi hj
        rcases i with _ | _ | n
        · simp only [List.get?] at hi hj
          cases hi; cases hj
          refine ⟨rs0, by rw [hp0], ?_⟩
          simp [initialCallParams, loopCallParams, roundMessages]
        · simp at hj
        · simp at hj
      case pos =>
        rcases hp1 : _execute_tools tm (client 1).content with ⟨invs1, res1⟩
        cases res1 with
        | error e =>
          rw [loopPure_round1_err g client tm _ _ _ _ _ e h0 hp0 h1
            (by rw [hp1])] at hi hj
          rcases i with _ | _ | n
          · simp only [List.get?] at hi hj
            cases hi; cases hj
            refine ⟨rs0, by rw [hp0], ?_⟩
            simp [initialCallParams, loopCallParams, roundMessages]
          · simp at hj
          · simp at hj
        | ok rs1 =>
          rw [loopPure_two_rounds g client tm _ _ _ _ _ _ _ h0 hp0 h1 hp1] at hi hj
          rcases i with _ | _ | n
          · simp only [List.get?] at hi hj
            cases hi; cases hj
            refine ⟨rs0, by rw [hp0], ?_⟩
            simp [initialCallParams, loopCallParams, roundMessages]
          · simp only [List.get?] at hi hj
            cases hi; cases hj
            refine ⟨rs1, by rw [hp1], ?_⟩
            simp [loopCallParams, finalCallParams, roundMessages]
          · simp at hj

theorem C4_history_per_round_witness :
    (generate_response wGen wClientOneRound "q" none (some ["sch"]) (some wTmOk)
      []).calls.get? 0 = some (initialCallParams wGen "q" none (some ["sch"])) ∧
    (generate_response wGen wClientOneRound "q" none (some ["sch"]) (some wTmOk)
      []).calls.get? 1
      = some (loopCallParams wGen (baseOf wGen none (some ["sch"]) 0)
          (roundMessages [userMsg "q"] [wSearchBlock]
            [{ tool_use_id := "i1", content := "res" }])) ∧
    (∃ rs : List ToolResultBlock,
      (_execute_tools wTmOk (wClientOneRound 0).content).2 = Except.ok rs ∧
      (loopCallParams wGen (baseOf wGen none (some ["sch"]) 0)
          (roundMessages [userMsg "q"] [wSearchBlock]
            [{ tool_use_id := "i1", content := "res" }])).messages
        = (initialCallParams wGen "q" none (some ["sch"])).messages ++
            [assistantMsg ((wClientOneRound 0).content)] ++
            (if rs.isEmpty then [] else [toolResultsMsg rs])) :=
  ⟨by decide, by decide,
   C4_history_per_round wGen wClientOneRound "q" none (some ["sch"]) wTmOk [] 0
     (initialCallParams wGen "q" none (some ["sch"]))
     (loopCallParams wGen (baseOf wGen none (some ["sch"]) 0)
       (roundMessages [userMsg "q"] [wSearchBlock]
         [{ tool_use_id := "i1", content := "res" }]))
     (by decide) (by decide)⟩

theorem extractTextBlocks_eq_firstText (bs : List ContentBlock) :
    extractTextBlocks bs = firstTextOrEmpty bs := by
  induction bs with
  | nil => rfl
  | cons b rest ih =>
    cases b with
    | text t => simp [extractTextBlocks, firstTextOrEmpty, List.find?]
    | toolUse id name input => simpa [extractTextBlocks, firstTextOrEmpty, List.find?] using ih
    | other ty => simpa [extractTextBlocks, firstTextOrEmpty, List.find?] using ih

/-- C2 counterexample: on the direct path (first response not requesting tool
use) with empty content, the code raises `IndexError`
(`response.content[0].text`), whereas the claim demands the empty string
without raising.  The claim as stated is therefore false. -/
theorem C2_first_text_counterexample :
    (generate_response wGen wClientEmpty "q" none none none []).outcome
        ≠ Except.ok (firstTextOrEmpty (wClientEmpty 0).content) ∧
    (generate_response wGen wClientEmpty "q" none none none []).outcome
        = Except.error "IndexError" := by
  constructor
  · decide
  · decide

/-- C2 (amended): terminal responses of the tool-calling loop are rendered by
`_extract_text_from_response`, which returns the first Text block's text
scanning in content order, or the empty string (never raising); the direct
path of `generate_response` instead returns `response.content[0].text`,
which raises on empty content or a non-Text first block, and agrees with the
first-Text-block rule when the first block is a Text block. -/
theorem C2_terminal_text_extraction :
    (∀ r : Response, _extract_text_from_response r = firstTextOrEmpty r.content) ∧
    (∀ (g : AIGenerator) (client : Client) (query : String) (hist : Option String)
      (tools : Option (List ToolSchema)) (store : MsgStore),
      (generate_response g client query hist tools none store).outcome
        = contentIndexZeroText (client 0).content) ∧
    (∀ (g : AIGenerator) (client : Client) (query : String) (hist : Option String)
      (tools : Option (List ToolSchema)) (tm : ToolManager) (store : MsgStore),
      (client 0).stop_reason ≠ "tool_use" →
      (generate_response g client query hist tools (some tm) store).outcome
        = contentIndexZeroText (client 0).content) ∧
    (∀ (t : String) (rest : List ContentBlock),
      contentIndexZeroText (ContentBlock.text t :: rest)
        = Except.ok (firstTextOrEmpty (ContentBlock.text t :: rest))) ∧
    (∀ (g : AIGenerator) (client : Client) (query : String) (hist : Option String)
      (tools : Option (List ToolSchema)) (tm : ToolManager)
      (f : String → ToolInput → String) (store : MsgStore),
      (∀ n i, tm n i = Except.ok (f n i)) →
      (client 0).stop_reason = "tool_use" → (client 1).stop_reason ≠ "tool_use" →
      (generate_response g client query hist tools (some tm) store).outcome
        = Except.ok (firstTextOrEmpty (client 1).content)) := by
  refine ⟨?_, ?_, ?_, ?_, ?_⟩
  · intro r
    exact extractTextBlocks_eq_firstText r.content
  · intro g client query hist tools store
    rw [run_no_manager]
  · intro g client query hist tools tm store h0
    rw [run_first_not_tool_use g client query hist tools tm store h0]
  · intro t rest
    simp [contentIndexZeroText, ContentBlock.textAttr, firstTextOrEmpty, List.find?]
  · intro g client query hist tools tm f store htm h0 h1
    rw [run_with_loop g client query hist tools tm store h0]
    simp only [runPure]
    rw [loopPure_round0_ok_stop1 g client tm _ _ _ _ _ h0
      (execute_tools_of_ok tm f htm _) h1]
    simp [_extract_text_from_response, extractTextBlocks_eq_firstText]

theorem C2_terminal_text_extraction_witness :
    (generate_response wGen wClientOneRound "q" none (some ["sch"]) (some wTmOk)
      []).outcome = Except.ok (firstTextOrEmpty (wClientOneRound 1).content) :=
  C2_terminal_text_extraction.2.2.2.2 wGen wClientOneRound "q" none (some ["sch"])
    wTmOk (fun _ _ => "res") [] (fun n i => rfl) (by decide) (by decide)

end RagChatbot
